import Mathlib

/-!
Shallow embedding of the uniprot-gene-fasta-tool repository
(src/uniprot_logic.py and src/uniprot_cli.py) and proofs about it.

Python dictionaries with optional keys are modelled as structures whose
fields are Option values; a missing key is none, a present key is some.
Python str.strip is modelled by pyStrip, str.upper by pyUpper, both
written as structurally recursive list functions so that concrete
instances evaluate inside the kernel.
The filesystem is modelled as a map from paths to file contents, and the
HTTP layer as an explicit response argument plus a log of issued requests.
Python exceptions are modelled by an explicit error type: ValueError
becomes PyExc.valueError, every other exception PyExc.other.
-/

namespace UniprotTool

/-- Python exceptions as they matter to this program: ValueError versus
every other exception (requests.HTTPError, OSError, ...). -/
inductive PyExc where
  | valueError (msg : String)
  | other (msg : String)
deriving DecidableEq, Repr

/-- Model of the on-disk state: a partial map from file paths to contents. -/
def FS : Type := String → Option String

/-- Writing a file: the target path now holds the text, every other path
is unchanged. Models open(filepath, "w") followed by fh.write. -/
def writeFile (fs : FS) (path text : String) : FS :=
  fun q => if q = path then some text else fs q

/-- The empty filesystem. -/
def fsEmpty : FS := fun _ => none

/-- Base URL constant from uniprot_logic.py. -/
def BASE_URL : String := "https://rest.uniprot.org"

/-- ASCII whitespace as recognised by Python str.strip. -/
def pyIsSpace (c : Char) : Bool :=
  c = ' ' || c = '\t' || c = '\n' || c = '\x0d' || c = '\x0b' || c = '\x0c'

/-- Model of Python str.strip: drop whitespace from both ends. -/
def pyStrip (s : String) : String :=
  ⟨((s.data.dropWhile pyIsSpace).reverse.dropWhile pyIsSpace).reverse⟩

/-- Model of Python str.upper, character by character. -/
def pyUpper (s : String) : String :=
  ⟨s.data.map Char.toUpper⟩

/-! ## The JSON record shapes consumed by _extract_metadata and the search -/

/-- A fullName sub-object: a dict that may carry a value key. -/
structure FullName where
  value : Option String := none
deriving DecidableEq, Repr

/-- The recommendedName sub-object of the protein section. -/
structure RecommendedName where
  fullName : Option FullName := none
deriving DecidableEq, Repr

/-- One entry of the alternativeNames list. -/
structure AltName where
  fullName : Option FullName := none
deriving DecidableEq, Repr

/-- The protein sub-record of a UniProt entry. -/
structure ProteinSection where
  recommendedName : Option RecommendedName := none
  alternativeNames : Option (List AltName) := none
deriving DecidableEq, Repr

/-- The organism sub-record. -/
structure OrganismSection where
  scientificName : Option String := none
deriving DecidableEq, Repr

/-- The sequence sub-record. -/
structure SequenceSection where
  length : Option Nat := none
deriving DecidableEq, Repr

/-- One entry of a comment texts list. -/
structure TextEntry where
  value : Option String := none
deriving DecidableEq, Repr

/-- One entry of the comments list. -/
structure Comment where
  texts : Option (List TextEntry) := none
deriving DecidableEq, Repr

/-- A raw UniProt JSON entry, restricted to the keys this program reads. -/
structure Entry where
  primaryAccession : Option String := none
  accession : Option String := none
  protein : Option ProteinSection := none
  organism : Option OrganismSection := none
  sequence : Option SequenceSection := none
  comments : Option (List Comment) := none
deriving DecidableEq, Repr

/-- The metadata dict built by _extract_metadata and consumed by
save_metadata. Fields are optional because save_metadata uses
dict.get with defaults, so it accepts dicts missing keys. -/
structure MetadataDict where
  protein_name : Option String := none
  organism_name : Option String := none
  protein_length : Option Nat := none
  description : Option String := none
deriving DecidableEq, Repr

/-! ## uniprot_logic.py -/

/-- One character-for-character replacement pass, the semantics of
Python str.replace with a single-character pattern. -/
def replaceChar (a b : Char) (s : String) : String :=
  ⟨s.data.map fun c => if c = a then b else c⟩

/-- From uniprot_logic.py: s.replace(space, underscore).replace(slash, underscore). -/
def _sanitize_filename_component (s : String) : String :=
  replaceChar '/' '_' (replaceChar ' ' '_' s)

/-- Python truthiness-based or on optional strings: a or b is a when a is a
non-empty string, else b. Used for primaryAccession or accession. -/
def pyOr (a b : Option String) : Option String :=
  match a with
  | some s => if s = "" then b else some s
  | none => b

/-- First value found by the description loop of _extract_metadata: the
first comment whose texts key is present and non-empty contributes
texts[0].get(value, empty); otherwise the empty string. -/
def firstCommentText : List Comment → String
  | [] => ""
  | c :: rest =>
    match c.texts with
    | some (t :: _) => t.value.getD ""
    | _ => firstCommentText rest

/-- From uniprot_logic.py, _extract_metadata: builds the metadata dict,
defaulting every absent field to the empty string or zero. -/
def _extract_metadata (entry : Entry) : MetadataDict :=
  let protein_name :=
    match entry.protein with
    | none => ""
    | some p =>
      match p.recommendedName with
      | none => ""
      | some rn => ((rn.fullName.getD {}).value.getD "")
  let protein_name :=
    if protein_name = "" then
      match entry.protein with
      | none => protein_name
      | some p =>
        match p.alternativeNames with
        | some (a :: _) =>
          match a.fullName with
          | some fn => fn.value.getD ""
          | none => protein_name
        | _ => protein_name
    else protein_name
  let organism_name :=
    match entry.organism with
    | none => ""
    | some o => o.scientificName.getD ""
  let protein_length :=
    match entry.sequence with
    | none => 0
    | some sq => sq.length.getD 0
  let description :=
    match entry.comments with
    | none => ""
    | some cs => firstCommentText cs
  { protein_name := some protein_name
    organism_name := some organism_name
    protein_length := some protein_length
    description := some description }

/-- The search request issued by search_uniprot_by_gene: endpoint URL and
the query parameters gene:<gene>, json, size 1. -/
structure SearchRequest where
  url : String
  query : String
  format : String
  size : Nat
deriving DecidableEq, Repr

/-- The request search_uniprot_by_gene builds for a given gene. -/
def mkSearchRequest (gene : String) : SearchRequest :=
  { url := BASE_URL ++ "/uniprotkb/search"
    query := "gene:" ++ gene
    format := "json"
    size := 1 }

/-- An HTTP response to the search request: status code plus the parsed
results key of the JSON body (absent key modelled as none). -/
structure SearchResponse where
  status : Nat
  results : Option (List Entry) := none

/-- From uniprot_logic.py, search_uniprot_by_gene, with the network made
explicit: http maps a request to its response, and the returned list logs
the requests actually issued. Raising becomes returning Except.error;
resp.raise_for_status raises for status codes in [400, 600). -/
def search_uniprot_by_gene (gene : String) (http : SearchRequest → SearchResponse) :
    Except PyExc (Option (Option String × MetadataDict)) × List SearchRequest :=
  if gene = "" ∨ pyStrip gene = "" then
    (Except.error (PyExc.valueError "Gene name must be provided"), [])
  else if 400 ≤ (http (mkSearchRequest gene)).status ∧ (http (mkSearchRequest gene)).status < 600 then
    (Except.error (PyExc.other ("HTTP " ++ toString (http (mkSearchRequest gene)).status)),
      [mkSearchRequest gene])
  else
    match ((http (mkSearchRequest gene)).results).getD [] with
    | [] => (Except.ok none, [mkSearchRequest gene])
    | first :: _ =>
      (Except.ok (some (pyOr first.primaryAccession first.accession, _extract_metadata first)),
        [mkSearchRequest gene])

/-- Path construction shared by save_metadata and save_fasta: when a
directory is given and truthy it is prepended (os.path.join), else the
bare filename is used relative to the working directory. -/
def pathFor (directory : Option String) (filename : String) : String :=
  match directory with
  | some d => if d = "" then filename else d ++ "/" ++ filename
  | none => filename

/-- The text block save_metadata writes: the sequence of fh.write calls
from uniprot_logic.py lines 127-133. dict.get with default is Option.getD,
and the Description line is guarded by Python truthiness of the value. -/
def metadataText (metadata : MetadataDict) (gene uniprot_id : String) : String :=
  "Gene: " ++ pyUpper gene ++ "\n" ++
  "UniProt ID: " ++ uniprot_id ++ "\n" ++
  "Protein Name: " ++ metadata.protein_name.getD "N/A" ++ "\n" ++
  "Organism: " ++ metadata.organism_name.getD "N/A" ++ "\n" ++
  "Protein Length: " ++ toString (metadata.protein_length.getD 0) ++ " amino acids\n" ++
  (match metadata.description with
   | some d => if d = "" then "" else "Description: " ++ d ++ "\n"
   | none => "")

/-- From uniprot_logic.py, save_metadata: derives the filename, writes the
metadata block, returns the path. It performs no input validation, so it
never produces an error; the Except type is kept to match save_fasta. -/
def save_metadata (metadata : MetadataDict) (gene uniprot_id : String)
    (directory : Option String) (fs : FS) : Except PyExc (String × FS) :=
  let gene_safe := _sanitize_filename_component (pyUpper gene)
  let uid_safe := _sanitize_filename_component uniprot_id
  let filename := gene_safe ++ "_" ++ uid_safe ++ "_metadata.txt"
  let filepath := pathFor directory filename
  Except.ok (filepath, writeFile fs filepath (metadataText metadata gene uniprot_id))

/-- From uniprot_logic.py, save_fasta: rejects a null fasta_str and empty
gene or uniprot_id, then writes fasta_str verbatim to the derived path. -/
def save_fasta (fasta_str : Option String) (gene uniprot_id : String)
    (directory : Option String) (fs : FS) : Except PyExc (String × FS) :=
  match fasta_str with
  | none => Except.error (PyExc.valueError "fasta_str must be provided")
  | some text =>
    if gene = "" ∨ uniprot_id = "" then
      Except.error (PyExc.valueError "gene and uniprot_id must be provided")
    else
      let gene_safe := _sanitize_filename_component (pyUpper gene)
      let uid_safe := _sanitize_filename_component uniprot_id
      let filename := gene_safe ++ "_" ++ uid_safe ++ ".fasta"
      let filepath := pathFor directory filename
      Except.ok (filepath, writeFile fs filepath text)

/-! ## uniprot_cli.py -/

/-- How Python print renders an optional string: None prints as None. -/
def pyShowOpt : Option String → String
  | some s => s
  | none => "None"

/-- The one-line diagnostic printed by the two except clauses of main:
ValueError gets the Input error prefix, every other exception Error. -/
def catchLine : PyExc → String
  | PyExc.valueError m => "Input error: " ++ m
  | PyExc.other m => "Error: " ++ m

/-- The environment the driver runs against: the line typed at the prompt
and the outcome of each of the four fallible operations it invokes, in
program order (search, download, save fasta, save metadata). An error
value models that call raising an exception. -/
structure Env where
  userInput : String
  searchResult : Except PyExc (Option (Option String × MetadataDict))
  downloadResult : Except PyExc String
  saveFastaResult : Except PyExc String
  saveMetadataResult : Except PyExc String

/-- The metadata lines main prints to the console for a found protein,
uniprot_cli.py lines 35-40. -/
def foundLines (accession : Option String) (metadata : MetadataDict) : List String :=
  ["Found protein: " ++ metadata.protein_name.getD "Unknown",
   "UniProt ID: " ++ pyShowOpt accession,
   "Organism: " ++ metadata.organism_name.getD "Unknown",
   "Protein length: " ++ toString (metadata.protein_length.getD 0) ++ " amino acids"]
  ++ (match metadata.description with
      | some d => if d = "" then [] else ["Description: " ++ d]
      | none => [])

/-- From uniprot_cli.py, main: returns the exit status and the lines
printed to standard output. The try block is modelled by matching each
step outcome; any error jumps to the except clauses, which print one
diagnostic line and return 1. -/
def main (env : Env) : Nat × List String :=
  let gene := pyStrip env.userInput
  if gene = "" then (1, ["No gene provided. Exiting."])
  else
    let out0 := ["Searching UniProt for gene " ++ gene ++ "..."]
    match env.searchResult with
    | Except.error e => (1, out0 ++ [catchLine e])
    | Except.ok none =>
      (1, out0 ++ ["No protein found for this gene. Please check the gene name and try again."])
    | Except.ok (some (accession, metadata)) =>
      let out1 := out0 ++ foundLines accession metadata
        ++ ["Downloading FASTA for " ++ pyShowOpt accession ++ "..."]
      match env.downloadResult with
      | Except.error e => (1, out1 ++ [catchLine e])
      | Except.ok _ =>
        match env.saveFastaResult with
        | Except.error e => (1, out1 ++ [catchLine e])
        | Except.ok fasta_file =>
          match env.saveMetadataResult with
          | Except.error e => (1, out1 ++ [catchLine e])
          | Except.ok metadata_file =>
            (0, out1 ++ ["Saved FASTA to: " ++ fasta_file,
                         "Saved metadata to: " ++ metadata_file])

/-- The exception that reaches the except clauses of main, if any: the
error of the first fallible step actually executed that fails. -/
def mainException (env : Env) : Option PyExc :=
  if pyStrip env.userInput = "" then none
  else
    match env.searchResult with
    | Except.error e => some e
    | Except.ok none => none
    | Except.ok (some _) =>
      match env.downloadResult with
      | Except.error e => some e
      | Except.ok _ =>
        match env.saveFastaResult with
        | Except.error e => some e
        | Except.ok _ =>
          match env.saveMetadataResult with
          | Except.error e => some e
          | Except.ok _ => none

/-- All steps of the driver run to completion: non-blank input, a search
hit, and no exception from any of the four operations. -/
def allStepsComplete (env : Env) : Prop :=
  pyStrip env.userInput ≠ ""
  ∧ (∃ pr, env.searchResult = Except.ok (some pr))
  ∧ (∃ s, env.downloadResult = Except.ok s)
  ∧ (∃ s, env.saveFastaResult = Except.ok s)
  ∧ (∃ s, env.saveMetadataResult = Except.ok s)

/-! ## Derived definitions and concrete instances used by the theorems -/

/-- The single character replacement both passes of sanitization amount to. -/
def sanChar (c : Char) : Char :=
  if c = ' ' ∨ c = '/' then '_' else c

/-- Reading back the file written by a save operation: the contents at
the returned path, or none when the operation failed. -/
def readBack (r : Except PyExc (String × FS)) : Option String :=
  match r with
  | Except.ok (p, fs) => fs p
  | Except.error _ => none

/-- Modelled from the spec: the metadata block as section 4.4 words it,
with Protein Name or N/A if empty and Organism or N/A if empty, so that
a present but empty value also renders as N/A. Written only to be
compared against metadataText, the block the code actually writes. -/
def metadataTextSpec (metadata : MetadataDict) (gene uniprot_id : String) : String :=
  "Gene: " ++ pyUpper gene ++ "\n" ++
  "UniProt ID: " ++ uniprot_id ++ "\n" ++
  "Protein Name: " ++ (if metadata.protein_name.getD "" = ""
      then "N/A" else metadata.protein_name.getD "") ++ "\n" ++
  "Organism: " ++ (if metadata.organism_name.getD "" = ""
      then "N/A" else metadata.organism_name.getD "") ++ "\n" ++
  "Protein Length: " ++ toString (metadata.protein_length.getD 0) ++ " amino acids\n" ++
  (if metadata.description.getD "" = "" then ""
   else "Description: " ++ metadata.description.getD "" ++ "\n")

/-- The entry of the C8 example: only primaryAccession and a sequence
length of 189 are present. -/
def entryC8 : Entry :=
  { primaryAccession := some "P01116", sequence := some { length := some 189 } }

/-- An HTTP stub answering every request with status 200 and an empty
results list. -/
def httpNoResults : SearchRequest → SearchResponse :=
  fun _ => { status := 200, results := some [] }

/-- An entry with no keys at all. -/
def entryNoAcc : Entry := {}

/-- An HTTP stub returning one result that carries no keys. -/
def httpOneNoAcc : SearchRequest → SearchResponse :=
  fun _ => { status := 200, results := some [entryNoAcc] }

/-- An entry whose accession key holds the empty string and whose
primaryAccession key is absent. -/
def entryEmptyAcc : Entry := { accession := some "" }

/-- An HTTP stub returning one result: entryEmptyAcc. -/
def httpEmptyAcc : SearchRequest → SearchResponse :=
  fun _ => { status := 200, results := some [entryEmptyAcc] }

/-- A metadata dict with a present but empty protein_name, as
_extract_metadata produces for an entry without a protein section. -/
def mdC1 : MetadataDict :=
  { protein_name := some "", organism_name := some "Homo sapiens",
    protein_length := some 189, description := some "" }

/-- A driver environment whose search call raises a ValueError. -/
def envValueErr : Env :=
  { userInput := "KRAS"
    searchResult := Except.error (PyExc.valueError "boom")
    downloadResult := Except.ok ""
    saveFastaResult := Except.ok ""
    saveMetadataResult := Except.ok "" }

/-! ## Theorems -/

/-- The last line of a printed transcript that ends in two pushed lines. -/
theorem lastOfAppendPair {α : Type} (x : α) (l : List α) (a b : α) :
    (x :: (l ++ [a, b])).getLast? = some b := by
  have hne : ([a, b] : List α) ≠ [] := by simp
  rw [show (x :: (l ++ [a, b])) = (x :: l) ++ [a, b] by simp,
    List.getLast?_append_of_ne_nil _ hne]
  rfl

/-- Replacing twice is the same as replacing once. -/
theorem sanChar_idem (c : Char) : sanChar (sanChar c) = sanChar c := by
  by_cases hc : c = ' ' ∨ c = '/'
  · have h1 : sanChar c = '_' := by
      unfold sanChar
      exact if_pos hc
    rw [h1]
    decide
  · have h1 : sanChar c = c := by
      unfold sanChar
      exact if_neg hc
    rw [h1]
    exact h1

/-- Character-level reading of sanitization. -/
theorem sanitize_data (s : String) :
    (_sanitize_filename_component s).data = s.data.map sanChar := by
  simp only [_sanitize_filename_component, replaceChar, List.map_map]
  refine List.map_congr_left ?_
  intro c _
  simp only [Function.comp, sanChar]
  by_cases hsp : c = ' '
  · subst hsp; simp
  · by_cases hsl : c = '/'
    · subst hsl; simp
    · simp [hsp, hsl]

/-- C5: on strings of spaces, slashes and alphanumerics, sanitization
removes every space and slash, maps exactly spaces and slashes to
underscores leaving all other characters in place, and is idempotent. -/
theorem sanitize_total_idempotent (s : String)
    (_h : ∀ c ∈ s.data, c = ' ' ∨ c = '/' ∨ c.isAlphanum = true) :
    (∀ c ∈ (_sanitize_filename_component s).data, c ≠ ' ' ∧ c ≠ '/')
    ∧ (_sanitize_filename_component s).data
        = s.data.map (fun c => if c = ' ' ∨ c = '/' then '_' else c)
    ∧ _sanitize_filename_component (_sanitize_filename_component s)
        = _sanitize_filename_component s := by
  refine ⟨?_, sanitize_data s, ?_⟩
  · intro c hc
    rw [sanitize_data] at hc
    obtain ⟨a, _, rfl⟩ := List.mem_map.mp hc
    unfold sanChar
    by_cases ha : a = ' ' ∨ a = '/'
    · rw [if_pos ha]
      exact ⟨by decide, by decide⟩
    · rw [if_neg ha]
      push_neg at ha
      exact ha
  · have hdata : (_sanitize_filename_component (_sanitize_filename_component s)).data
        = (_sanitize_filename_component s).data := by
      rw [sanitize_data, sanitize_data, List.map_map]
      refine List.map_congr_left ?_
      intro c _
      simp only [Function.comp_apply]
      exact sanChar_idem c
    cases hsan : _sanitize_filename_component (_sanitize_filename_component s)
    cases hsan2 : _sanitize_filename_component s
    simp_all

/-- C5 witness at the string composed of a letter, a space, a letter, a
slash and a digit. -/
theorem sanitize_total_idempotent_witness :
    (∀ c ∈ "a b/c".data, c = ' ' ∨ c = '/' ∨ c.isAlphanum = true)
    ∧ ((∀ c ∈ (_sanitize_filename_component "a b/c").data, c ≠ ' ' ∧ c ≠ '/')
       ∧ (_sanitize_filename_component "a b/c").data
           = "a b/c".data.map (fun c => if c = ' ' ∨ c = '/' then '_' else c)
       ∧ _sanitize_filename_component (_sanitize_filename_component "a b/c")
           = _sanitize_filename_component "a b/c") :=
  ⟨by decide, sanitize_total_idempotent "a b/c" (by decide)⟩

/-- C2: metadata extraction is total with defaults: every field of the
result is populated, and each of the four sub-records being absent
forces the corresponding default (empty string or zero). -/
theorem extract_metadata_defaults (entry : Entry) :
    ((_extract_metadata entry).protein_name.isSome = true
      ∧ (_extract_metadata entry).organism_name.isSome = true
      ∧ (_extract_metadata entry).protein_length.isSome = true
      ∧ (_extract_metadata entry).description.isSome = true)
    ∧ (entry.protein = none → (_extract_metadata entry).protein_name = some "")
    ∧ (entry.organism = none → (_extract_metadata entry).organism_name = some "")
    ∧ (entry.sequence = none → (_extract_metadata entry).protein_length = some 0)
    ∧ (entry.comments = none → (_extract_metadata entry).description = some "") := by
  refine ⟨⟨?_, ?_, ?_, ?_⟩, ?_, ?_, ?_, ?_⟩
  · simp [_extract_metadata]
  · simp [_extract_metadata]
  · simp [_extract_metadata]
  · simp [_extract_metadata]
  · intro h
    simp [_extract_metadata, h]
  · intro h
    simp [_extract_metadata, h]
  · intro h
    simp [_extract_metadata, h]
  · intro h
    simp [_extract_metadata, h]

/-- C2 witness at the entry missing all four sub-records. -/
theorem extract_metadata_defaults_witness :
    (_extract_metadata {}).protein_name = some ""
    ∧ (_extract_metadata {}).organism_name = some ""
    ∧ (_extract_metadata {}).protein_length = some 0
    ∧ (_extract_metadata {}).description = some "" :=
  ⟨(extract_metadata_defaults {}).2.1 rfl,
   (extract_metadata_defaults {}).2.2.1 rfl,
   (extract_metadata_defaults {}).2.2.2.1 rfl,
   (extract_metadata_defaults {}).2.2.2.2 rfl⟩

/-- C8: on the record carrying only primaryAccession P01116 and sequence
length 189, extraction yields length 189 and empty strings elsewhere. -/
theorem extract_metadata_p01116 :
    _extract_metadata entryC8
      = { protein_name := some "", organism_name := some "",
          protein_length := some 189, description := some "" } := rfl

/-- C3: a gene name that is empty or whitespace-only is rejected with a
ValueError and no request is issued; any other gene name leads to exactly
the one search request being issued. -/
theorem search_blank_gene_rejected (gene : String) (http : SearchRequest → SearchResponse) :
    (pyStrip gene = "" →
      search_uniprot_by_gene gene http
        = (Except.error (PyExc.valueError "Gene name must be provided"), []))
    ∧ (pyStrip gene ≠ "" →
      (search_uniprot_by_gene gene http).2 = [mkSearchRequest gene]) := by
  constructor
  · intro h
    simp [search_uniprot_by_gene, h]
  · intro h
    have hg : ¬(gene = "" ∨ pyStrip gene = "") := by
      rintro (rfl | h2)
      · exact h rfl
      · exact h h2
    rw [search_uniprot_by_gene, if_neg hg]
    split
    · rfl
    · split <;> rfl

/-- C3 witness: a three-space gene is rejected without a request, and
gene KRAS issues the search request. -/
theorem search_blank_gene_rejected_witness :
    search_uniprot_by_gene "   " httpNoResults
        = (Except.error (PyExc.valueError "Gene name must be provided"), [])
    ∧ (search_uniprot_by_gene "KRAS" httpNoResults).2 = [mkSearchRequest "KRAS"] :=
  ⟨(search_blank_gene_rejected "   " httpNoResults).1 rfl,
   (search_blank_gene_rejected "KRAS" httpNoResults).2 (by decide)⟩

/-- C4: a successful response whose results list is empty makes the
search return none as a normal value, not an error. -/
theorem search_empty_results_nomatch (gene : String) (http : SearchRequest → SearchResponse)
    (hg : pyStrip gene ≠ "")
    (hs : (http (mkSearchRequest gene)).status < 400)
    (hr : (http (mkSearchRequest gene)).results = some []) :
    (search_uniprot_by_gene gene http).1 = Except.ok none := by
  have hcond : ¬(gene = "" ∨ pyStrip gene = "") := by
    rintro (rfl | h2)
    · exact hg rfl
    · exact hg h2
  have hst : ¬(400 ≤ (http (mkSearchRequest gene)).status
      ∧ (http (mkSearchRequest gene)).status < 600) := by
    rintro ⟨h1, -⟩
    omega
  rw [search_uniprot_by_gene, if_neg hcond, if_neg hst]
  simp [hr]

/-- C4 witness: gene KRAS against the empty-results stub yields none. -/
theorem search_empty_results_nomatch_witness :
    (search_uniprot_by_gene "KRAS" httpNoResults).1 = Except.ok none :=
  search_empty_results_nomatch "KRAS" httpNoResults (by decide) (by decide) rfl

/-- C9 (amended): for a successful non-empty response the search returns
a pair whose accession is the primaryAccession if that is a non-empty
string, else the raw accession field, which is none when both keys are
absent; an empty-string primaryAccession triggers the fallback. -/
theorem search_first_result_accession (gene : String) (http : SearchRequest → SearchResponse)
    (first : Entry) (rest : List Entry)
    (hg : pyStrip gene ≠ "")
    (hs : (http (mkSearchRequest gene)).status < 400)
    (hr : (http (mkSearchRequest gene)).results = some (first :: rest)) :
    (search_uniprot_by_gene gene http).1
      = Except.ok (some (pyOr first.primaryAccession first.accession, _extract_metadata first))
    ∧ (first.primaryAccession = none → first.accession = none →
        (search_uniprot_by_gene gene http).1
          = Except.ok (some (none, _extract_metadata first)))
    ∧ (first.primaryAccession = some "" →
        pyOr first.primaryAccession first.accession = first.accession) := by
  have hcond : ¬(gene = "" ∨ pyStrip gene = "") := by
    rintro (rfl | h2)
    · exact hg rfl
    · exact hg h2
  have hst : ¬(400 ≤ (http (mkSearchRequest gene)).status
      ∧ (http (mkSearchRequest gene)).status < 600) := by
    rintro ⟨h1, -⟩
    omega
  have hmain : (search_uniprot_by_gene gene http).1
      = Except.ok (some (pyOr first.primaryAccession first.accession,
          _extract_metadata first)) := by
    rw [search_uniprot_by_gene, if_neg hcond, if_neg hst]
    simp [hr]
  refine ⟨hmain, ?_, ?_⟩
  · intro h1 h2
    rw [hmain, h1, h2]
    simp [pyOr]
  · intro h1
    rw [h1]
    simp [pyOr]

/-- C9 witness: one result with no accession keys at all still gives a
pair, whose accession is none. -/
theorem search_first_result_accession_witness :
    (search_uniprot_by_gene "KRAS" httpOneNoAcc).1
      = Except.ok (some (none, _extract_metadata entryNoAcc)) :=
  (search_first_result_accession "KRAS" httpOneNoAcc entryNoAcc []
    (by decide) (by decide) rfl).2.1 rfl rfl

/-- C9 counterexample: when the accession key holds the empty string,
the returned pair carries that empty string, which is not None, so the
claim that the pair always carries accession None fails here. -/
theorem search_accession_empty_not_none :
    (search_uniprot_by_gene "KRAS" httpEmptyAcc).1
      = Except.ok (some (some "", _extract_metadata entryEmptyAcc))
    ∧ (some "" : Option String) ≠ none := by
  constructor
  · rfl
  · decide

/-- C6: saving a present fasta text under non-empty gene and accession
succeeds, and the file at the returned path holds exactly that text. -/
theorem save_fasta_roundtrip (text gene uniprot_id : String) (fs : FS)
    (hg : gene ≠ "") (hu : uniprot_id ≠ "") :
    (∃ r, save_fasta (some text) gene uniprot_id none fs = Except.ok r)
    ∧ ∀ p fs', save_fasta (some text) gene uniprot_id none fs = Except.ok (p, fs') →
        fs' p = some text := by
  have hcond : ¬(gene = "" ∨ uniprot_id = "") := by
    rintro (h | h)
    exacts [hg h, hu h]
  constructor
  · simp only [save_fasta]
    rw [if_neg hcond]
    exact ⟨_, rfl⟩
  · intro p fs' h
    simp only [save_fasta] at h
    rw [if_neg hcond] at h
    have h2 := Except.ok.inj h
    rw [Prod.mk.injEq] at h2
    obtain ⟨h3, h4⟩ := h2
    rw [← h4, ← h3]
    simp [writeFile]

/-- C6 witness: the round trip at gene kras and accession P01116. -/
theorem save_fasta_roundtrip_witness :
    (∃ r, save_fasta (some ">sp|P01116|RASK_HUMAN") "kras" "P01116" none fsEmpty
        = Except.ok r)
    ∧ ∀ p fs', save_fasta (some ">sp|P01116|RASK_HUMAN") "kras" "P01116" none fsEmpty
        = Except.ok (p, fs') → fs' p = some ">sp|P01116|RASK_HUMAN" :=
  save_fasta_roundtrip ">sp|P01116|RASK_HUMAN" "kras" "P01116" fsEmpty
    (by decide) (by decide)

/-- C1 counterexample: with a present but empty protein_name the block
save_metadata writes renders the name as the empty string, so the file
contents differ from the block the specification describes, which would
render N/A there. -/
theorem save_metadata_na_counterexample :
    readBack (save_metadata mdC1 "kras" "P01116" none fsEmpty)
        = some (metadataText mdC1 "kras" "P01116")
    ∧ metadataText mdC1 "kras" "P01116" ≠ metadataTextSpec mdC1 "kras" "P01116" := by
  constructor
  · rfl
  · decide

/-- C1 (amended): save_metadata writes the fixed-format block with the
Gene line uppercased, the UniProt ID line, a Protein Name line showing
N/A exactly when the protein_name key is absent (a present empty value
prints as empty), the same for Organism, a Protein Length line with the
amino-acids suffix, and a Description line present exactly when the
description value is a non-empty string. -/
theorem save_metadata_block (md : MetadataDict) (gene uniprot_id : String) (fs : FS) :
    ∃ p fs', save_metadata md gene uniprot_id none fs = Except.ok (p, fs')
      ∧ fs' p = some (
          "Gene: " ++ pyUpper gene ++ "\n"
          ++ "UniProt ID: " ++ uniprot_id ++ "\n"
          ++ "Protein Name: " ++ (match md.protein_name with
              | none => "N/A"
              | some s => s) ++ "\n"
          ++ "Organism: " ++ (match md.organism_name with
              | none => "N/A"
              | some s => s) ++ "\n"
          ++ "Protein Length: " ++ toString (md.protein_length.getD 0) ++ " amino acids\n"
          ++ (match md.description with
              | some d => if d = "" then "" else "Description: " ++ d ++ "\n"
              | none => "")) := by
  refine ⟨_, _, rfl, ?_⟩
  simp only [writeFile, if_pos rfl, metadataText]
  cases md.protein_name <;> cases md.organism_name <;> rfl

/-- C10: save_metadata validates nothing: for every metadata dict, gene
and accession, also empty ones, it succeeds and writes a file; with both
names empty the path is __metadata.txt; save_fasta by contrast rejects
an empty gene or accession with a ValueError. -/
theorem save_metadata_no_validation (md : MetadataDict) (gene uniprot_id : String) (fs : FS) :
    (∃ p fs', save_metadata md gene uniprot_id none fs = Except.ok (p, fs')
        ∧ (fs' p).isSome = true)
    ∧ (∃ fs', save_metadata md "" "" none fs = Except.ok ("__metadata.txt", fs'))
    ∧ (∀ t, save_fasta (some t) "" uniprot_id none fs
        = Except.error (PyExc.valueError "gene and uniprot_id must be provided"))
    ∧ (∀ t, save_fasta (some t) gene "" none fs
        = Except.error (PyExc.valueError "gene and uniprot_id must be provided")) := by
  refine ⟨⟨_, _, rfl, by simp [writeFile]⟩, ⟨_, rfl⟩, ?_, ?_⟩
  · intro t
    simp [save_fasta]
  · intro t
    simp [save_fasta]

/-- C7: the driver exits 0 exactly when every step completes; it exits 1
on blank input, on no match, and on any exception, and the final printed
line carries the Input error prefix for a ValueError and the Error
prefix for any other exception. -/
theorem main_exit_codes (env : Env) :
    ((main env).1 = 0 ↔ allStepsComplete env)
    ∧ ((main env).1 = 0 ∨ (main env).1 = 1)
    ∧ (pyStrip env.userInput = "" → (main env).1 = 1)
    ∧ (env.searchResult = Except.ok none → (main env).1 = 1)
    ∧ (∀ m, mainException env = some (PyExc.valueError m) →
        (main env).1 = 1 ∧ (main env).2.getLast? = some ("Input error: " ++ m))
    ∧ (∀ m, mainException env = some (PyExc.other m) →
        (main env).1 = 1 ∧ (main env).2.getLast? = some ("Error: " ++ m)) := by
  obtain ⟨ui, sr, dr, fr, mr⟩ := env
  by_cases hb : pyStrip ui = ""
  · simp [main, mainException, allStepsComplete, hb]
  · cases sr with
    | error e =>
      cases e <;>
        simp [main, mainException, allStepsComplete, hb, catchLine]
    | ok o =>
      cases o with
      | none => simp [main, mainException, allStepsComplete, hb]
      | some pr =>
        obtain ⟨acc, md⟩ := pr
        cases dr with
        | error e =>
          cases e <;>
            (simp [main, mainException, allStepsComplete, hb, catchLine];
              exact lastOfAppendPair _ _ _ _)
        | ok s1 =>
          cases fr with
          | error e =>
            cases e <;>
              (simp [main, mainException, allStepsComplete, hb, catchLine];
                exact lastOfAppendPair _ _ _ _)
          | ok s2 =>
            cases mr with
            | error e =>
              cases e <;>
                (simp [main, mainException, allStepsComplete, hb, catchLine];
                  exact lastOfAppendPair _ _ _ _)
            | ok s3 =>
              simp [main, mainException, allStepsComplete, hb]

/-- C7 witness: the environment whose search raises ValueError boom
exits 1 and reports Input error boom as its final line. -/
theorem main_exit_codes_witness :
    (main envValueErr).1 = 1
    ∧ (main envValueErr).2.getLast? = some ("Input error: " ++ "boom") :=
  (main_exit_codes envValueErr).2.2.2.2.1 "boom" rfl

end UniprotTool
